import Mathlib

/-!
Verification development for the delivery root-cause analytics pipeline
(`delivery_root_cause_analyzer.py`).

The development shallowly embeds the core data pipeline:

* `create_integrated_dataset` — the multi-source left-join integration,
* `add_root_cause_features` — the derived-feature engine
  (delay, delayed flag, primary root cause, severity),
* `filter_data` — the declarative filter layer,
* `explain_delivery_causes` and `compare_performance` — the analytics engine.

Modelling conventions:

* Tables are lists of typed rows; a missing source table is `none`.
* Dates and timestamps are day numbers (`Int`); an unparsable or missing
  date is `none` (pandas coerces these to `NaT`).  The pipeline's
  hour/month calendar decompositions are below day granularity and are
  outside this model; the day-of-week decomposition is modelled as the
  day number modulo 7.
* Monetary amounts, ratings and all numeric aggregates are exact
  rationals (`ℚ`), standing for the float columns of the dataframe.
* Nullable text cells are `Option String`; scalar source columns that the
  data model treats as mandatory are modelled non-nullable, so the pandas
  `first` (first non-null) group reducer is the head of the group.
* Group keys of a pandas `groupby` are emitted in sorted order, and
  `sort_values` on small frames is stable, which is how sorting is
  modelled here.
-/

/-! ## Kernel-computable rational arithmetic

`Rat.add`, `Rat.mul`, `Rat.inv` and `Rat.sub` are `@[irreducible]`, so
closed aggregates built from `+`, `*`, `/` cannot be evaluated by
`decide`.  The pipeline below therefore computes with the following
wrappers, each defined through `Rat.divInt` (which does reduce) and
proved equal to the corresponding field operation on `ℚ`.
-/

/-- Addition on `ℚ` via `Rat.divInt`; equal to `+` by `qadd_eq`. -/
def qadd (a b : ℚ) : ℚ :=
  Rat.divInt (a.num * (b.den : Int) + b.num * (a.den : Int)) ((a.den : Int) * (b.den : Int))

/-- Multiplication on `ℚ` via `Rat.divInt`; equal to `*` by `qmul_eq`. -/
def qmul (a b : ℚ) : ℚ :=
  Rat.divInt (a.num * b.num) ((a.den : Int) * (b.den : Int))

/-- Division on `ℚ` via `Rat.divInt` (with `qdiv a 0 = 0` as in `ℚ`);
equal to `/` by `qdiv_eq`. -/
def qdiv (a b : ℚ) : ℚ :=
  Rat.divInt (a.num * (b.den : Int)) ((a.den : Int) * b.num)

/-- Sum of a list of rationals; equal to `List.sum` by `qsum_eq`. -/
def qsum (l : List ℚ) : ℚ :=
  l.foldr qadd 0

/-- Nearest-integer rounding with ties to the even integer, as performed
by `numpy.round` / `DataFrame.round`. -/
def roundHalfEven (q : ℚ) : Int :=
  let f : Int := q.floor
  let frac : ℚ := qadd q (Rat.divInt (-f) 1)
  if frac < Rat.divInt 1 2 then f
  else if Rat.divInt 1 2 < frac then f + 1
  else if f % 2 = 0 then f else f + 1

/-- Rounding to 2 decimal places (`.round(2)` in the source). -/
def round2 (q : ℚ) : ℚ :=
  Rat.divInt (roundHalfEven (qmul q 100)) 100

/-- Mean of a list of rationals, `sum / count` (0 on the empty list,
which never occurs: every pandas group is nonempty). -/
def qmean (l : List ℚ) : ℚ :=
  qdiv (qsum l) (Rat.divInt (l.length : Int) 1)

/-- Mean that skips nulls, as pandas `mean` does on a column with NaN:
`none` when every value is null. -/
def qmeanOpt (l : List (Option ℚ)) : Option ℚ :=
  let v := l.filterMap id
  if v.isEmpty then none else some (qmean v)

/-! ## Kernel-computable string helpers

`String.toLower` and `String.decidableLE` do not reduce in the kernel,
so case-insensitive matching and lexicographic ordering are defined
over the code points of `String.data`.
-/

/-- Code point of a character after ASCII lowercasing. -/
def lowerCode (c : Char) : Nat :=
  if 65 ≤ c.toNat && c.toNat ≤ 90 then c.toNat + 32 else c.toNat

/-- ASCII-lowercased code points of a string. -/
def lowerCodes (s : String) : List Nat :=
  s.data.map lowerCode

/-- Whether `p` is a prefix of `s` (on lists of code points). -/
def codesPre : List Nat → List Nat → Bool
  | [], _ => true
  | _ :: _, [] => false
  | p :: ps, c :: cs => p == c && codesPre ps cs

/-- Whether `p` occurs as a contiguous substring of `s`
(on lists of code points). -/
def codesSub (p : List Nat) : List Nat → Bool
  | [] => p.isEmpty
  | c :: cs => codesPre p (c :: cs) || codesSub p cs

/-- Case-insensitive substring test: does `s` contain any of the
(lowercase) patterns `pats`?  Models a case-insensitive
`Series.str.contains` with an alternation pattern. -/
def containsCI (s : String) (pats : List String) : Bool :=
  pats.any (fun p => codesSub (lowerCodes p) (lowerCodes s))

/-- Lexicographic code-point order on strings (Python string order,
used by `groupby` to sort group keys). -/
def strLeB (a b : String) : Bool :=
  codesLe (a.data.map Char.toNat) (b.data.map Char.toNat)
where
  /-- Lexicographic order on code-point lists. -/
  codesLe : List Nat → List Nat → Bool
    | [], _ => true
    | _ :: _, [] => false
    | x :: xs, y :: ys => if x < y then true else if y < x then false else codesLe xs ys

/-! ## Source data model

One structure per loaded CSV source, mirroring the columns the pipeline
uses.  Scalar columns the data model treats as mandatory are modelled
non-nullable (so the pandas `first`, i.e. first non-null, group reducer
is the head of the group); free-text note columns are nullable.
-/

/-- A row of the primary `orders` source, with its dates already parsed
(`none` = missing or unparsable, coerced to `NaT` by the loader). -/
structure OrderRow where
  order_id : Nat
  client_id : Nat
  city : String
  order_date : Option Int
  promised_delivery_date : Option Int
  actual_delivery_date : Option Int
  status : String
  failure_reason : Option String
  amount : ℚ
deriving DecidableEq

/-- A row of the `warehouses` source. -/
structure WarehouseRow where
  warehouse_id : Nat
  warehouse_name : String
  city : String
  capacity : Int
  manager_name : String
deriving DecidableEq

/-- A row of the `clients` source. -/
structure ClientRow where
  client_id : Nat
  client_name : String
  contact_person : String
deriving DecidableEq

/-- A row of the `fleet_logs` source (one or more per order). -/
structure FleetLogRow where
  order_id : Nat
  driver_id : Nat
  vehicle_number : String
  route_code : String
  gps_delay_notes : Option String
  departure_time : Int
  arrival_time : Int
deriving DecidableEq

/-- A row of the `drivers` source.  Note its own `status` column, which
collides with the order `status` on merging. -/
structure DriverRow where
  driver_id : Nat
  driver_name : String
  partner_company : String
  status : String
deriving DecidableEq

/-- A row of the `warehouse_logs` source (one or more per order). -/
structure WarehouseLogRow where
  order_id : Nat
  picking_start : Int
  picking_end : Int
  dispatch_time : Int
  notes : Option String
deriving DecidableEq

/-- A row of the `external_factors` source (one or more per order). -/
structure ExternalFactorRow where
  order_id : Nat
  traffic_condition : String
  weather_condition : String
  event_type : Option String
deriving DecidableEq

/-- A row of the `feedback` source (one or more per order). -/
structure FeedbackRow where
  order_id : Nat
  feedback_text : String
  sentiment : String
  rating : ℚ
deriving DecidableEq

/-! ## One-to-many reduction (pandas `groupby('order_id').agg(...)`)

Each multi-row source is reduced to one row per `order_id` before its
join: `first` for scalar columns, a non-null/non-empty join for note
columns, `mean` for ratings.
-/

/-- The note-column reducer
`lambda x: ', '.join(filter(lambda y: y and pd.notna(y), x)) if any(pd.notna(x)) else None`:
`none` when every entry is null, otherwise the non-null non-empty
entries joined by `sep`. -/
def joinNotes (sep : String) (xs : List (Option String)) : Option String :=
  if xs.any (·.isSome) then
    some (String.intercalate sep ((xs.filterMap id).filter (fun s => !(s == ""))))
  else none

/-- Fleet log reduced to one row per order. -/
structure FleetSummary where
  order_id : Nat
  driver_id : Option Nat
  vehicle_number : Option String
  route_code : Option String
  gps_delay_notes : Option String
  departure_time : Option Int
  arrival_time : Option Int
deriving DecidableEq

/-- Reduction of `fleet_logs`: first value for scalar columns,
comma-join for `gps_delay_notes`. -/
def reduceFleet (rows : List FleetLogRow) : List FleetSummary :=
  ((rows.map (·.order_id)).dedup).map fun i =>
    let g := rows.filter (fun r => r.order_id == i)
    { order_id := i
      driver_id := (g.map (·.driver_id)).head?
      vehicle_number := (g.map (·.vehicle_number)).head?
      route_code := (g.map (·.route_code)).head?
      gps_delay_notes := joinNotes ", " (g.map (·.gps_delay_notes))
      departure_time := (g.map (·.departure_time)).head?
      arrival_time := (g.map (·.arrival_time)).head? }

/-- Warehouse log reduced to one row per order. -/
structure WarehouseLogSummary where
  order_id : Nat
  picking_start : Option Int
  picking_end : Option Int
  dispatch_time : Option Int
  notes : Option String
deriving DecidableEq

/-- Reduction of `warehouse_logs`: first value for the timestamps,
comma-join for `notes`. -/
def reduceWarehouseLogs (rows : List WarehouseLogRow) : List WarehouseLogSummary :=
  ((rows.map (·.order_id)).dedup).map fun i =>
    let g := rows.filter (fun r => r.order_id == i)
    { order_id := i
      picking_start := (g.map (·.picking_start)).head?
      picking_end := (g.map (·.picking_end)).head?
      dispatch_time := (g.map (·.dispatch_time)).head?
      notes := joinNotes ", " (g.map (·.notes)) }

/-- External factors reduced to one row per order. -/
structure ExternalFactorSummary where
  order_id : Nat
  traffic_condition : Option String
  weather_condition : Option String
  event_type : Option String
deriving DecidableEq

/-- Reduction of `external_factors`: first value for conditions,
comma-join for `event_type`. -/
def reduceExternalFactors (rows : List ExternalFactorRow) : List ExternalFactorSummary :=
  ((rows.map (·.order_id)).dedup).map fun i =>
    let g := rows.filter (fun r => r.order_id == i)
    { order_id := i
      traffic_condition := (g.map (·.traffic_condition)).head?
      weather_condition := (g.map (·.weather_condition)).head?
      event_type := joinNotes ", " (g.map (·.event_type)) }

/-- Feedback reduced to one row per order. -/
structure FeedbackSummary where
  order_id : Nat
  feedback_text : Option String
  sentiment : Option String
  rating : Option ℚ
deriving DecidableEq

/-- Reduction of `feedback`: texts joined by a distinct separator,
first `sentiment`, `rating` averaged over the group. -/
def reduceFeedback (rows : List FeedbackRow) : List FeedbackSummary :=
  ((rows.map (·.order_id)).dedup).map fun i =>
    let g := rows.filter (fun r => r.order_id == i)
    { order_id := i
      feedback_text := if g.isEmpty then none
        else some (String.intercalate " | " (g.map (·.feedback_text)))
      sentiment := (g.map (·.sentiment)).head?
      rating := if g.isEmpty then none else some (qmean (g.map (·.rating))) }

/-! ## Dataset integration (`create_integrated_dataset`) -/

/-- One row of the joined (pre-derivation) integrated table: the order
plus the optionally joined secondary data (left-join semantics, `none`
where a source is absent or unmatched). -/
structure IntegRow where
  order : OrderRow
  warehouse_id : Option Nat := none
  warehouse : Option WarehouseRow := none
  client : Option ClientRow := none
  fleet : Option FleetSummary := none
  driver : Option DriverRow := none
  whlog : Option WarehouseLogSummary := none
  ext : Option ExternalFactorSummary := none
  feedback : Option FeedbackSummary := none
deriving DecidableEq

/-- The joined table handed to the feature engine.  `hasStatus` records
whether the `status` column survived the joins: the drivers merge brings
a second `status` column, and pandas then renames both sides away
(suffixes `_x`/`_y`), losing the plain `status` column. -/
structure JoinedTable where
  hasStatus : Bool
  rows : List IntegRow
deriving DecidableEq

/-- A generic pandas-style left merge of the working table with a
secondary table `rs` on an integer key: a left row with a null key, or
with no match, stays as a single row with a null payload; a left row
with several matches is repeated once per match. -/
def leftJoinOn (rs : List β) (key : β → Nat) (rowKey : IntegRow → Option Nat)
    (upd : IntegRow → Option β → IntegRow) (df : List IntegRow) : List IntegRow :=
  df.flatMap fun r =>
    match rowKey r with
    | none => [upd r none]
    | some i =>
      match rs.filter (fun b => key b == i) with
      | [] => [upd r none]
      | b :: bs => (b :: bs).map (fun m => upd r (some m))

/-- An optional integration stage: applied when the source table is
present, skipped (working table unchanged) when it is absent. -/
def optJoin (o : Option γ) (f : γ → List IntegRow → List IntegRow)
    (df : List IntegRow) : List IntegRow :=
  match o with
  | some x => f x df
  | none => df

/-- The warehouse stage: assign a `warehouse_id` to every order through
the city→first-warehouse-id mapping, then left-join the warehouse
descriptive fields on `warehouse_id`. -/
def joinWarehouses (ws : List WarehouseRow) (df : List IntegRow) : List IntegRow :=
  let mapping : String → Option Nat := fun c =>
    ((ws.filter (fun w => w.city == c)).map (·.warehouse_id)).head?
  leftJoinOn ws (·.warehouse_id) (·.warehouse_id)
    (fun r w => { r with warehouse := w })
    (df.map (fun r => { r with warehouse_id := mapping r.order.city }))

/-- The client stage: left-join client descriptive fields on `client_id`. -/
def joinClients (cs : List ClientRow) (df : List IntegRow) : List IntegRow :=
  leftJoinOn cs (·.client_id) (fun r => some r.order.client_id)
    (fun r c => { r with client := c }) df

/-- The fleet stage: left-join the reduced fleet summary on `order_id`. -/
def joinFleet (fl : List FleetLogRow) (df : List IntegRow) : List IntegRow :=
  leftJoinOn (reduceFleet fl) (·.order_id) (fun r => some r.order.order_id)
    (fun r f => { r with fleet := f }) df

/-- The driver stage: left-join driver descriptive fields on the
`driver_id` brought in by the fleet stage. -/
def joinDrivers (ds : List DriverRow) (df : List IntegRow) : List IntegRow :=
  leftJoinOn ds (·.driver_id) (fun r => r.fleet.bind (·.driver_id))
    (fun r d => { r with driver := d }) df

/-- The warehouse-log stage: left-join the reduced warehouse activity
summary on `order_id`. -/
def joinWarehouseLogs (wl : List WarehouseLogRow) (df : List IntegRow) : List IntegRow :=
  leftJoinOn (reduceWarehouseLogs wl) (·.order_id) (fun r => some r.order.order_id)
    (fun r w => { r with whlog := w }) df

/-- The external-factor stage: left-join the reduced external-factor
summary on `order_id`. -/
def joinExternal (ex : List ExternalFactorRow) (df : List IntegRow) : List IntegRow :=
  leftJoinOn (reduceExternalFactors ex) (·.order_id) (fun r => some r.order.order_id)
    (fun r e => { r with ext := e }) df

/-- The feedback stage: left-join the reduced feedback summary on
`order_id`. -/
def joinFeedback (fb : List FeedbackRow) (df : List IntegRow) : List IntegRow :=
  leftJoinOn (reduceFeedback fb) (·.order_id) (fun r => some r.order.order_id)
    (fun r f => { r with feedback := f }) df

/-- The integrator: starts from the order table and applies the
optional stages in script order — warehouses (via the
city→first-warehouse mapping), clients, reduced fleet logs, drivers
(only when a `driver_id` column exists, i.e. when the fleet stage ran),
reduced warehouse logs, reduced external factors, reduced feedback.
The innermost application below is the first stage.  `hasStatus` is
false exactly when the drivers merge ran: its own `status` column
collides with the order `status` and pandas suffixes both away. -/
def create_integrated_dataset (orders : List OrderRow)
    (warehouses : Option (List WarehouseRow)) (clients : Option (List ClientRow))
    (fleet_logs : Option (List FleetLogRow)) (drivers : Option (List DriverRow))
    (warehouse_logs : Option (List WarehouseLogRow))
    (external_factors : Option (List ExternalFactorRow))
    (feedback : Option (List FeedbackRow)) : JoinedTable :=
  { hasStatus := !(fleet_logs.isSome && drivers.isSome)
    rows :=
      optJoin feedback joinFeedback
        (optJoin external_factors joinExternal
          (optJoin warehouse_logs joinWarehouseLogs
            (optJoin drivers
              (fun ds d => if fleet_logs.isSome then joinDrivers ds d else d)
              (optJoin fleet_logs joinFleet
                (optJoin clients joinClients
                  (optJoin warehouses joinWarehouses
                    (orders.map (fun o => ({ order := o } : IntegRow))))))))) }

/-! ## Root-cause feature engine (`add_root_cause_features`) -/

/-- Day-of-week name of a day number (day numbers are taken modulo 7;
the epoch convention places day 0 on a Monday). -/
def dayName (d : Int) : String :=
  ["Monday", "Tuesday", "Wednesday", "Thursday", "Friday", "Saturday",
    "Sunday"].getD (d % 7).toNat "Monday"

/-- The keyword pass over `failure_reason`: the chain of
case-insensitive substring overwrites, later rules winning, default
`Other/Unknown`; a null reason matches nothing (`na=False`). -/
def keywordRootCause (fr : Option String) : String :=
  match fr with
  | none => "Other/Unknown"
  | some s =>
    let c := "Other/Unknown"
    let c := if containsCI s ["traffic", "congestion"] then "Traffic Congestion" else c
    let c := if containsCI s ["weather", "disruption"] then "Weather Disruption" else c
    let c := if containsCI s ["warehouse", "delay"] then "Warehouse Operations" else c
    let c := if containsCI s ["address"] then "Address Issues" else c
    let c := if containsCI s ["stock"] then "Stock Unavailability" else c
    let c := if containsCI s ["vehicle", "breakdown"] then "Vehicle Issues" else c
    c

/-- The full `primary_root_cause` computation: keyword pass, then the
status overrides (`Failed` → verbatim `failure_reason` or
`Unknown Failure`; `Returned` → `Customer Return`; `Pending` →
`Processing Delay`). -/
def primaryRootCause (status : String) (fr : Option String) : String :=
  let c := keywordRootCause fr
  let c := if status == "Failed" then fr.getD "Unknown Failure" else c
  let c := if status == "Returned" then "Customer Return" else c
  let c := if status == "Pending" then "Processing Delay" else c
  c

/-- The `severity` computation: default `Low`, then the delay tiers,
then the terminal `Failed` override, in script order. -/
def severityOf (delay : Int) (status : String) : String :=
  let s := "Low"
  let s := if 2 < delay then "Medium" else s
  let s := if 5 < delay then "High" else s
  let s := if status == "Failed" then "Critical" else s
  s

/-- One row of the integrated table after the feature engine ran:
the joined row plus the derived columns. -/
structure DerivedRow where
  integ : IntegRow
  status : String
  delivery_delay_days : Int
  is_delayed : Bool
  primary_root_cause : String
  severity : String
  order_day_of_week : Option String
deriving DecidableEq

/-- Per-row derivation: delay from the two delivery dates (0 when either
is missing), status defaulted to `Unknown` when the column was lost,
then the delayed flag, root cause, severity and calendar features. -/
def deriveRow (hasStatus : Bool) (r : IntegRow) : DerivedRow :=
  let delay : Int :=
    match r.order.actual_delivery_date, r.order.promised_delivery_date with
    | some a, some p => a - p
    | _, _ => 0
  let st := if hasStatus then r.order.status else "Unknown"
  { integ := r
    status := st
    delivery_delay_days := delay
    is_delayed := decide (0 < delay) || ["Failed", "Returned", "Pending"].contains st
    primary_root_cause := primaryRootCause st r.order.failure_reason
    severity := severityOf delay st
    order_day_of_week := r.order.order_date.map dayName }

/-- The feature engine over the joined table.  The second component is
the warning surfaced when the `status` column was lost during the joins
and had to be defaulted. -/
def add_root_cause_features (t : JoinedTable) : List DerivedRow × Bool :=
  (t.rows.map (deriveRow t.hasStatus), !t.hasStatus)

/-! ## The cached integrated dataframe -/

/-- Column names of the integrated dataframe, per present source.  On
the drivers merge both `status` columns are suffixed away (`status_x`
and `status_y`), and the feature engine re-adds a plain `status`
column. -/
def integColumns (w c f d wl e fb : Bool) : List String :=
  let collision := f && d
  (if collision then
    ["order_id", "client_id", "city", "order_date", "promised_delivery_date",
      "actual_delivery_date", "status_x", "failure_reason", "amount"]
  else
    ["order_id", "client_id", "city", "order_date", "promised_delivery_date",
      "actual_delivery_date", "status", "failure_reason", "amount"])
  ++ (if w then ["warehouse_id", "warehouse_name", "capacity", "manager_name"] else [])
  ++ (if c then ["client_name", "contact_person"] else [])
  ++ (if f then ["driver_id", "vehicle_number", "route_code", "gps_delay_notes",
        "departure_time", "arrival_time"] else [])
  ++ (if collision then ["driver_name", "partner_company", "status_y"] else [])
  ++ (if wl then ["picking_start", "picking_end", "dispatch_time", "notes"] else [])
  ++ (if e then ["traffic_condition", "weather_condition", "event_type"] else [])
  ++ (if fb then ["feedback_text", "sentiment", "rating"] else [])
  ++ ["delivery_delay_days"]
  ++ (if collision then ["status"] else [])
  ++ ["is_delayed", "primary_root_cause", "severity", "order_hour",
      "order_day_of_week", "order_month"]

/-- The integrated dataframe cached by the analyzer: its column names
and its derived rows. -/
structure IntegratedDF where
  cols : List String
  rows : List DerivedRow
deriving DecidableEq

/-- The value of a named column in a derived row, as the string group
key `groupby` would use (`none` = null, dropped by `groupby`; numeric
and boolean keys are rendered as strings).  `order_month` and the
sub-day part of timestamps are below the granularity of this model. -/
def colValue (r : DerivedRow) (col : String) : Option String :=
  match col with
  | "order_id" => some (toString r.integ.order.order_id)
  | "client_id" => some (toString r.integ.order.client_id)
  | "city" => some r.integ.order.city
  | "order_date" => r.integ.order.order_date.map toString
  | "promised_delivery_date" => r.integ.order.promised_delivery_date.map toString
  | "actual_delivery_date" => r.integ.order.actual_delivery_date.map toString
  | "status" => some r.status
  | "status_x" => some r.integ.order.status
  | "status_y" => r.integ.driver.map (·.status)
  | "failure_reason" => r.integ.order.failure_reason
  | "amount" => some (toString r.integ.order.amount)
  | "warehouse_id" => r.integ.warehouse_id.map toString
  | "warehouse_name" => r.integ.warehouse.map (·.warehouse_name)
  | "capacity" => r.integ.warehouse.map (fun w => toString w.capacity)
  | "manager_name" => r.integ.warehouse.map (·.manager_name)
  | "client_name" => r.integ.client.map (·.client_name)
  | "contact_person" => r.integ.client.map (·.contact_person)
  | "driver_id" => (r.integ.fleet.bind (·.driver_id)).map toString
  | "vehicle_number" => r.integ.fleet.bind (·.vehicle_number)
  | "route_code" => r.integ.fleet.bind (·.route_code)
  | "gps_delay_notes" => r.integ.fleet.bind (·.gps_delay_notes)
  | "departure_time" => (r.integ.fleet.bind (·.departure_time)).map toString
  | "arrival_time" => (r.integ.fleet.bind (·.arrival_time)).map toString
  | "driver_name" => r.integ.driver.map (·.driver_name)
  | "partner_company" => r.integ.driver.map (·.partner_company)
  | "picking_start" => (r.integ.whlog.bind (·.picking_start)).map toString
  | "picking_end" => (r.integ.whlog.bind (·.picking_end)).map toString
  | "dispatch_time" => (r.integ.whlog.bind (·.dispatch_time)).map toString
  | "notes" => r.integ.whlog.bind (·.notes)
  | "traffic_condition" => r.integ.ext.bind (·.traffic_condition)
  | "weather_condition" => r.integ.ext.bind (·.weather_condition)
  | "event_type" => r.integ.ext.bind (·.event_type)
  | "feedback_text" => r.integ.feedback.bind (·.feedback_text)
  | "sentiment" => r.integ.feedback.bind (·.sentiment)
  | "rating" => (r.integ.feedback.bind (·.rating)).map toString
  | "delivery_delay_days" => some (toString r.delivery_delay_days)
  | "is_delayed" => some (toString r.is_delayed)
  | "primary_root_cause" => some r.primary_root_cause
  | "severity" => some r.severity
  | "order_hour" => r.integ.order.order_date.map (fun _ => "0")
  | "order_day_of_week" => r.order_day_of_week
  | _ => none

/-- Builds the analyzer state: integration, then the feature engine.
The second component is the lost-status warning flag. -/
def integrated_df (orders : List OrderRow)
    (warehouses : Option (List WarehouseRow)) (clients : Option (List ClientRow))
    (fleet_logs : Option (List FleetLogRow)) (drivers : Option (List DriverRow))
    (warehouse_logs : Option (List WarehouseLogRow))
    (external_factors : Option (List ExternalFactorRow))
    (feedback : Option (List FeedbackRow)) : IntegratedDF × Bool :=
  let jt := create_integrated_dataset orders warehouses clients fleet_logs drivers
    warehouse_logs external_factors feedback
  let fr := add_root_cause_features jt
  ({ cols := integColumns warehouses.isSome clients.isSome fleet_logs.isSome
      drivers.isSome warehouse_logs.isSome external_factors.isSome feedback.isSome,
     rows := fr.1 }, fr.2)

/-! ## Filter layer (`filter_data`) -/

/-- A declarative filter specification.  An absent key (or, for the list
keys, an empty list, which is falsy in Python) imposes no constraint. -/
structure Filters where
  cities : Option (List String) := none
  date_from : Option Int := none
  date_to : Option Int := none
  clients : Option (List String) := none
  warehouses : Option (List String) := none
deriving DecidableEq

/-- An optional filter criterion: applied when its key is supplied,
skipped when absent. -/
def optRestrict (o : Option γ) (f : γ → List DerivedRow → List DerivedRow)
    (rows : List DerivedRow) : List DerivedRow :=
  match o with
  | some x => f x rows
  | none => rows

/-- The city criterion: keep rows whose lowercased city is among the
lowercased requested cities (no-op on the falsy empty list). -/
def restrictCities (cs : List String) (rows : List DerivedRow) : List DerivedRow :=
  if cs.isEmpty then rows
  else rows.filter (fun r => cs.any (fun c => lowerCodes c == lowerCodes r.integ.order.city))

/-- The lower `order_date` bound (a null date never satisfies it). -/
def restrictFrom (d : Int) (rows : List DerivedRow) : List DerivedRow :=
  rows.filter (fun r => (r.integ.order.order_date.map (fun o => decide (d ≤ o))).getD false)

/-- The upper `order_date` bound (a null date never satisfies it). -/
def restrictTo (d : Int) (rows : List DerivedRow) : List DerivedRow :=
  rows.filter (fun r => (r.integ.order.order_date.map (fun o => decide (o ≤ d))).getD false)

/-- The client criterion: case-insensitive substring alternation on
`client_name`, null names never matching (`na=False`). -/
def restrictClients (cs : List String) (rows : List DerivedRow) : List DerivedRow :=
  if cs.isEmpty then rows
  else rows.filter (fun r => ((r.integ.client.map (·.client_name)).map
    (fun n => cs.any (fun c => codesSub (lowerCodes c) (lowerCodes n)))).getD false)

/-- The warehouse criterion: case-insensitive substring alternation on
`warehouse_name`, null names never matching (`na=False`). -/
def restrictWarehouses (ws : List String) (rows : List DerivedRow) : List DerivedRow :=
  if ws.isEmpty then rows
  else rows.filter (fun r => ((r.integ.warehouse.map (·.warehouse_name)).map
    (fun n => ws.any (fun c => codesSub (lowerCodes c) (lowerCodes n)))).getD false)

/-- The filter layer, applying the supplied criteria in script order
(cities, date bounds, clients, warehouses); the innermost application
is the first criterion.  The source table is not mutated; a fresh
filtered table is returned. -/
def filter_data (fs : Filters) (t : IntegratedDF) : IntegratedDF :=
  { cols := t.cols
    rows :=
      optRestrict fs.warehouses restrictWarehouses
        (optRestrict fs.clients restrictClients
          (optRestrict fs.date_to restrictTo
            (optRestrict fs.date_from restrictFrom
              (optRestrict fs.cities restrictCities t.rows)))) }

/-! ## Analytics engine -/

/-- The problem-record restriction of `explain_delivery_causes`:
delayed, or in a `Failed`/`Returned` terminal state. -/
def problemPred (r : DerivedRow) : Bool :=
  r.is_delayed || ["Failed", "Returned"].contains r.status

/-- Group keys in sorted order, as `groupby(sort=True)` emits them. -/
def sortedKeys (l : List String) : List String :=
  List.insertionSort (fun a b => strLeB a b = true) l.dedup

/-- Pandas-style grouping: one sorted group key per distinct non-null
key value, with the rows carrying that key (null keys are dropped). -/
def groupBy (keyOf : DerivedRow → Option String) (rows : List DerivedRow) :
    List (String × List DerivedRow) :=
  (sortedKeys (rows.filterMap keyOf)).map
    (fun k => (k, rows.filter (fun r => keyOf r == some k)))

/-- Per-cause aggregate line of the root-cause breakdown.  The float
columns are rounded to 2 decimals by the `.round(2)` on the frame; the
integer count columns are unaffected by it. -/
structure CauseStats where
  failure_count : Nat
  avg_delay_days : ℚ
  lost_revenue : ℚ
  avg_rating : Option ℚ
  critical_cases : Nat
deriving DecidableEq

/-- The aggregation of one `primary_root_cause` group. -/
def causeStats (g : List DerivedRow) : CauseStats :=
  { failure_count := g.length
    avg_delay_days := round2 (qmean (g.map (fun r => (r.delivery_delay_days : ℚ))))
    lost_revenue := round2 (qsum (g.map (fun r => r.integ.order.amount)))
    avg_rating := (qmeanOpt (g.map (fun r => r.integ.feedback.bind (·.rating)))).map round2
    critical_cases := g.countP (fun r => r.severity == "Critical") }

/-- Per-city impact line of the insights (count and summed amount,
not rounded in the source). -/
structure CityImpact where
  order_count : Nat
  amount_sum : ℚ
deriving DecidableEq

/-- The descriptive insights attached to a root-cause report. -/
structure Insights where
  worst_days : List (String × Nat)
  most_affected_cities : List (String × CityImpact)
  problematic_warehouses : Option (List (String × Nat))
deriving DecidableEq

/-- A root-cause analysis report. -/
structure Analysis where
  root_cause_analysis : List (String × CauseStats)
  total_affected_orders : Nat
  total_lost_revenue : ℚ
  average_delay : ℚ
  insights : Insights
deriving DecidableEq

/-- Result of `explain_delivery_causes`: either the explicit
no-issues message or a report. -/
inductive ExplainResult where
  | noIssues (message : String)
  | report (a : Analysis)
deriving DecidableEq

/-- The root-cause explanation: restrict to problem records; if none,
return the explicit no-issues sentinel; otherwise group by
`primary_root_cause`, aggregate, sort by failure count descending,
truncate to `limit`, and attach day/city/warehouse insights and the
unrounded totals. -/
def explain_delivery_causes (df : IntegratedDF) (limit : Nat := 10) : ExplainResult :=
  let problem := df.rows.filter problemPred
  if problem.isEmpty then
    .noIssues "No delivery issues found in the specified criteria"
  else
    let causes := (groupBy (fun r => some r.primary_root_cause) problem).map
      (fun g => (g.1, causeStats g.2))
    let causes := (List.insertionSort
      (fun a b => b.2.failure_count ≤ a.2.failure_count) causes).take limit
    let dayCounts := (groupBy (fun r => r.order_day_of_week) problem).map
      (fun g => (g.1, g.2.length))
    let worst := (List.insertionSort (fun a b : String × Nat => b.2 ≤ a.2) dayCounts).take 3
    let cityStats := (groupBy (fun r => some r.integ.order.city) problem).map
      (fun g => (g.1,
        ({ order_count := g.2.length
           amount_sum := qsum (g.2.map (fun r => r.integ.order.amount)) } : CityImpact)))
    let topCities := (List.insertionSort
      (fun a b : String × CityImpact => b.2.order_count ≤ a.2.order_count) cityStats).take 5
    let wh :=
      if df.cols.contains "warehouse_name" then
        some ((List.insertionSort (fun a b : String × Nat => b.2 ≤ a.2)
          ((groupBy (fun r => r.integ.warehouse.map (·.warehouse_name)) problem).map
            (fun g => (g.1, g.2.length)))).take 5)
      else none
    .report
      { root_cause_analysis := causes
        total_affected_orders := problem.length
        total_lost_revenue := qsum (problem.map (fun r => r.integ.order.amount))
        average_delay := qmean (problem.map (fun r => (r.delivery_delay_days : ℚ)))
        insights := { worst_days := worst
                      most_affected_cities := topCities
                      problematic_warehouses := wh } }

/-- Per-group comparison line of `compare_performance`.  Float columns
rounded to 2 decimals; `delay_rate` is the rounded
`delayed / total * 100`. -/
structure GroupStats where
  total_orders : Nat
  delayed_orders : Nat
  avg_delay_days : ℚ
  total_revenue : ℚ
  avg_rating : Option ℚ
  delay_rate : ℚ
deriving DecidableEq

/-- The aggregation of one comparison group. -/
def groupStats (g : List DerivedRow) : GroupStats :=
  let total := g.length
  let delayed := g.countP (fun r => r.is_delayed == true)
  { total_orders := total
    delayed_orders := delayed
    avg_delay_days := round2 (qmean (g.map (fun r => (r.delivery_delay_days : ℚ))))
    total_revenue := round2 (qsum (g.map (fun r => r.integ.order.amount)))
    avg_rating := (qmeanOpt (g.map (fun r => r.integ.feedback.bind (·.rating)))).map round2
    delay_rate := round2 (qmul (qdiv (Rat.divInt delayed 1) (Rat.divInt total 1)) 100) }

/-- Result of `compare_performance`: a structured error naming the
missing field, or the per-group statistics sorted by `delay_rate`
descending. -/
inductive CompareResult where
  | failure (error : String)
  | stats (table : List (String × GroupStats))
deriving DecidableEq

/-- The performance comparison across a dimension: a structured error
when the dimension is not a present column; otherwise group by the
dimension, aggregate, and sort by the (rounded) `delay_rate`
descending. -/
def compare_performance (df : IntegratedDF) (comparison_field : String) : CompareResult :=
  if df.cols.contains comparison_field then
    let table := (groupBy (fun r => colValue r comparison_field) df.rows).map
      (fun g => (g.1, groupStats g.2))
    .stats (List.insertionSort (fun a b => b.2.delay_rate ≤ a.2.delay_rate) table)
  else
    .failure ("Field \x27" ++ comparison_field ++ "\x27 not found")

/-! ## Sample data used by the concrete witnesses -/

/-- A delivered order (3 days late) used in witnesses. -/
def wOrderA : OrderRow :=
  { order_id := 1, client_id := 10, city := "Mumbai", order_date := some 100,
    promised_delivery_date := some 100, actual_delivery_date := some 103,
    status := "Delivered", failure_reason := none, amount := 250 }

/-- A failed order with a stock-out reason used in witnesses. -/
def wOrderB : OrderRow :=
  { order_id := 2, client_id := 11, city := "Delhi", order_date := some 101,
    promised_delivery_date := some 101, actual_delivery_date := none,
    status := "Failed", failure_reason := some "Stock out", amount := 80 }

/-- A one-row warehouse table used in witnesses. -/
def wWarehouses : List WarehouseRow :=
  [{ warehouse_id := 5, warehouse_name := "WH Mumbai", city := "Mumbai",
     capacity := 100, manager_name := "M" }]

/-- A one-row client table used in witnesses. -/
def wClients : List ClientRow :=
  [{ client_id := 10, client_name := "Acme", contact_person := "P" }]

/-- A two-rows-per-order fleet log used in witnesses. -/
def wFleet : List FleetLogRow :=
  [{ order_id := 1, driver_id := 7, vehicle_number := "V1", route_code := "R1",
     gps_delay_notes := some "Heavy traffic", departure_time := 5, arrival_time := 6 },
   { order_id := 1, driver_id := 8, vehicle_number := "V2", route_code := "R2",
     gps_delay_notes := none, departure_time := 7, arrival_time := 8 }]

/-- A one-row driver table used in witnesses. -/
def wDrivers : List DriverRow :=
  [{ driver_id := 7, driver_name := "D", partner_company := "PC", status := "Active" }]

/-- A one-row warehouse log used in witnesses. -/
def wWhLogs : List WarehouseLogRow :=
  [{ order_id := 1, picking_start := 1, picking_end := 2, dispatch_time := 3,
     notes := some "slow picking" }]

/-- A one-row external-factor table used in witnesses. -/
def wExternal : List ExternalFactorRow :=
  [{ order_id := 2, traffic_condition := "Heavy", weather_condition := "Rain",
     event_type := none }]

/-- A one-row feedback table used in witnesses. -/
def wFeedback : List FeedbackRow :=
  [{ order_id := 2, feedback_text := "late again", sentiment := "Negative", rating := 2 }]

/-! ## Example rows used by the feature-engine claims -/

/-- A failed order that is also 6 days late (severity tie-break data). -/
def wOrderC : OrderRow :=
  { order_id := 3, client_id := 12, city := "Pune", order_date := some 200,
    promised_delivery_date := some 200, actual_delivery_date := some 206,
    status := "Failed", failure_reason := none, amount := 50 }

/-- A delivered order promised on day 19732 (2024-01-10 as days since
1970-01-01) and delivered on day 19735 (2024-01-13). -/
def wOrderD : OrderRow :=
  { order_id := 4, client_id := 13, city := "Chennai", order_date := some 19730,
    promised_delivery_date := some 19732, actual_delivery_date := some 19735,
    status := "Delivered", failure_reason := none, amount := 20 }

/-! ## Clean-table sample data used by the analytics claims -/

/-- An on-time delivered order (no problem record). -/
def wOrderE : OrderRow :=
  { order_id := 5, client_id := 14, city := "Pune", order_date := some 100,
    promised_delivery_date := some 100, actual_delivery_date := some 100,
    status := "Delivered", failure_reason := none, amount := 10 }

/-- A one-row joined table of on-time delivered orders. -/
def wCleanJT : JoinedTable :=
  { hasStatus := true, rows := [{ order := wOrderE }] }

/-- The cached integrated dataframe over the single clean order, used
as a concrete analytics input. -/
def wCleanDF : IntegratedDF :=
  (integrated_df [wOrderE] none none none none none none none).1

/-- The analysis report of the one-failed-order table, spelled out. -/
def wFailAnalysis : Analysis :=
  { root_cause_analysis := [("Unknown Failure",
      { failure_count := 1, avg_delay_days := 6, lost_revenue := 50,
        avg_rating := none, critical_cases := 1 })]
    total_affected_orders := 1
    total_lost_revenue := 50
    average_delay := 6
    insights := { worst_days := [("Friday", 1)]
                  most_affected_cities := [("Pune", { order_count := 1, amount_sum := 50 })]
                  problematic_warehouses := none } }

/-- The cached integrated dataframe over the single failed 6-day-late
order. -/
def wFailDF : IntegratedDF :=
  (integrated_df [wOrderC] none none none none none none none).1

/-- The comparison table of the one-failed-order table, spelled out. -/
def wFailCityStats : List (String × GroupStats) :=
  [("Pune",
    { total_orders := 1
      delayed_orders := 1
      avg_delay_days := 6
      total_revenue := 50
      avg_rating := none
      delay_rate := 100 })]

/-- A minimal order for the rounded-sort counterexample: `delayed`
decides whether the delivery is one day late. -/
def cmpOrder (i : Nat) (c : String) (delayed : Bool) : OrderRow :=
  { order_id := i, client_id := 0, city := c, order_date := some 0,
    promised_delivery_date := some 0,
    actual_delivery_date := some (if delayed then 1 else 0),
    status := "Delivered", failure_reason := none, amount := 0 }

/-- 353 orders in two cities: city A has 10 delayed of 321 orders
(unrounded delay rate 1000/321 ≈ 3.115 percent), city B has 1 delayed
of 32 (unrounded rate 100/32 = 3.125 percent).  Both rates round to
3.12, so sorting on the rounded rate keeps the group-key order A, B. -/
def cmpOrders : List OrderRow :=
  ((List.range 10).map (fun i => cmpOrder i "A" true))
  ++ ((List.range 311).map (fun i => cmpOrder (10 + i) "A" false))
  ++ ((List.range 1).map (fun i => cmpOrder (321 + i) "B" true))
  ++ ((List.range 31).map (fun i => cmpOrder (322 + i) "B" false))

/-- The cached integrated dataframe over the counterexample orders. -/
def cmpDF : IntegratedDF :=
  (integrated_df cmpOrders none none none none none none none).1

/-- The comparison line of city A: 10 delayed of 321 orders. -/
def cmpStatsA : GroupStats :=
  { total_orders := 321
    delayed_orders := 10
    avg_delay_days := Rat.divInt 3 100
    total_revenue := 0
    avg_rating := none
    delay_rate := Rat.divInt 312 100 }

/-- The comparison line of city B: 1 delayed of 32 orders. -/
def cmpStatsB : GroupStats :=
  { total_orders := 32
    delayed_orders := 1
    avg_delay_days := Rat.divInt 3 100
    total_revenue := 0
    avg_rating := none
    delay_rate := Rat.divInt 312 100 }

theorem qadd_eq (a b : ℚ) : qadd a b = a + b := by
  have ha : (a.den : Int) ≠ 0 := Int.natCast_ne_zero.mpr a.den_nz
  have hb : (b.den : Int) ≠ 0 := Int.natCast_ne_zero.mpr b.den_nz
  rw [qadd, ← Rat.divInt_add_divInt a.num b.num ha hb, Rat.divInt_self, Rat.divInt_self]

theorem qmul_eq (a b : ℚ) : qmul a b = a * b := by
  have ha : (a.den : Int) ≠ 0 := Int.natCast_ne_zero.mpr a.den_nz
  have hb : (b.den : Int) ≠ 0 := Int.natCast_ne_zero.mpr b.den_nz
  rw [qmul, ← Rat.divInt_mul_divInt a.num b.num ha hb, Rat.divInt_self, Rat.divInt_self]

theorem qdiv_eq (a b : ℚ) : qdiv a b = a / b := by
  by_cases hb : b.num = 0
  · have hb0 : b = 0 := Rat.zero_iff_num_zero.mpr hb
    simp [qdiv, hb, hb0]
  · have ha : (a.den : Int) ≠ 0 := Int.natCast_ne_zero.mpr a.den_nz
    rw [Rat.div_def, Rat.inv_def, qdiv, ← Rat.divInt_mul_divInt a.num (b.den : Int) ha hb,
      Rat.divInt_self]

theorem qsum_eq (l : List ℚ) : qsum l = l.sum := by
  induction l with
  | nil => rfl
  | cons a l ih => rw [qsum, List.foldr_cons, ← qsum, ih, qadd_eq, List.sum_cons]

/-! ## Join-cardinality lemmas (claim C1) -/

theorem filter_key_length_le_one (rs : List β) (key : β → Nat)
    (h : (rs.map key).Nodup) (i : Nat) :
    (rs.filter (fun b => key b == i)).length ≤ 1 := by
  induction rs with
  | nil => simp
  | cons b l ih =>
    rw [List.map_cons, List.nodup_cons] at h
    rw [List.filter_cons]
    by_cases hb : key b = i
    · have hnil : l.filter (fun x => key x == i) = [] := by
        rw [List.filter_eq_nil_iff]
        intro x hx
        simp only [beq_iff_eq]
        intro hxi
        exact h.1 (by rw [hb, ← hxi]; exact List.mem_map_of_mem key hx)
      simp [hb, hnil]
    · simp only [beq_iff_eq, hb, if_false]
      exact ih h.2

theorem leftJoinOn_length (rs : List β) (key : β → Nat) (rowKey : IntegRow → Option Nat)
    (upd : IntegRow → Option β → IntegRow) (df : List IntegRow)
    (h : (rs.map key).Nodup) :
    (leftJoinOn rs key rowKey upd df).length = df.length := by
  induction df with
  | nil => rfl
  | cons r l ih =>
    rw [leftJoinOn] at ih ⊢
    rw [List.flatMap_cons, List.length_append, ih, List.length_cons]
    cases hk : rowKey r with
    | none => simp [Nat.add_comm]
    | some i =>
      have hle := filter_key_length_le_one rs key h i
      dsimp only
      cases hf : rs.filter (fun b => key b == i) with
      | nil => simp [Nat.add_comm]
      | cons b bs =>
        rw [hf] at hle
        dsimp only
        simp only [List.length_cons, List.length_map] at hle ⊢
        omega

theorem reduceFleet_keys_nodup (fl : List FleetLogRow) :
    ((reduceFleet fl).map (·.order_id)).Nodup := by
  have h : ((reduceFleet fl).map (·.order_id)) = (fl.map (·.order_id)).dedup := by
    simp [reduceFleet, List.map_map, Function.comp_def]
  rw [h]
  exact List.nodup_dedup _

theorem reduceWarehouseLogs_keys_nodup (wl : List WarehouseLogRow) :
    ((reduceWarehouseLogs wl).map (·.order_id)).Nodup := by
  have h : ((reduceWarehouseLogs wl).map (·.order_id)) = (wl.map (·.order_id)).dedup := by
    simp [reduceWarehouseLogs, List.map_map, Function.comp_def]
  rw [h]
  exact List.nodup_dedup _

theorem reduceExternalFactors_keys_nodup (ex : List ExternalFactorRow) :
    ((reduceExternalFactors ex).map (·.order_id)).Nodup := by
  have h : ((reduceExternalFactors ex).map (·.order_id)) = (ex.map (·.order_id)).dedup := by
    simp [reduceExternalFactors, List.map_map, Function.comp_def]
  rw [h]
  exact List.nodup_dedup _

theorem reduceFeedback_keys_nodup (fb : List FeedbackRow) :
    ((reduceFeedback fb).map (·.order_id)).Nodup := by
  have h : ((reduceFeedback fb).map (·.order_id)) = (fb.map (·.order_id)).dedup := by
    simp [reduceFeedback, List.map_map, Function.comp_def]
  rw [h]
  exact List.nodup_dedup _

theorem joinWarehouses_length (ws : List WarehouseRow) (df : List IntegRow)
    (h : (ws.map (·.warehouse_id)).Nodup) :
    (joinWarehouses ws df).length = df.length := by
  rw [joinWarehouses, leftJoinOn_length _ _ _ _ _ h, List.length_map]

theorem joinClients_length (cs : List ClientRow) (df : List IntegRow)
    (h : (cs.map (·.client_id)).Nodup) :
    (joinClients cs df).length = df.length :=
  leftJoinOn_length _ _ _ _ _ h

theorem joinFleet_length (fl : List FleetLogRow) (df : List IntegRow) :
    (joinFleet fl df).length = df.length :=
  leftJoinOn_length _ _ _ _ _ (reduceFleet_keys_nodup fl)

theorem joinDrivers_length (ds : List DriverRow) (df : List IntegRow)
    (h : (ds.map (·.driver_id)).Nodup) :
    (joinDrivers ds df).length = df.length :=
  leftJoinOn_length _ _ _ _ _ h

theorem joinWarehouseLogs_length (wl : List WarehouseLogRow) (df : List IntegRow) :
    (joinWarehouseLogs wl df).length = df.length :=
  leftJoinOn_length _ _ _ _ _ (reduceWarehouseLogs_keys_nodup wl)

theorem joinExternal_length (ex : List ExternalFactorRow) (df : List IntegRow) :
    (joinExternal ex df).length = df.length :=
  leftJoinOn_length _ _ _ _ _ (reduceExternalFactors_keys_nodup ex)

theorem joinFeedback_length (fb : List FeedbackRow) (df : List IntegRow) :
    (joinFeedback fb df).length = df.length :=
  leftJoinOn_length _ _ _ _ _ (reduceFeedback_keys_nodup fb)

theorem optJoin_length (o : Option γ) (f : γ → List IntegRow → List IntegRow)
    (df : List IntegRow) (h : ∀ x, o = some x → (f x df).length = df.length) :
    (optJoin o f df).length = df.length := by
  cases o with
  | none => rfl
  | some x => exact h x rfl

/-- C1: for every order table with N rows and every combination of
present or absent secondary sources, the integrated dataset produced by
`create_integrated_dataset` has exactly N rows — every join is a left
join, the one-to-many sources are pre-reduced to one row per
`order_id`, and the dimension tables carry their data-model keys
(`warehouse_id`, `client_id`, `driver_id` unique), so no join
multiplies order rows. -/
theorem integration_preserves_order_count (orders : List OrderRow)
    (warehouses : Option (List WarehouseRow)) (clients : Option (List ClientRow))
    (fleet_logs : Option (List FleetLogRow)) (drivers : Option (List DriverRow))
    (warehouse_logs : Option (List WarehouseLogRow))
    (external_factors : Option (List ExternalFactorRow))
    (feedback : Option (List FeedbackRow))
    (hw : ∀ ws, warehouses = some ws → (ws.map (·.warehouse_id)).Nodup)
    (hc : ∀ cs, clients = some cs → (cs.map (·.client_id)).Nodup)
    (hd : ∀ ds, drivers = some ds → (ds.map (·.driver_id)).Nodup) :
    (create_integrated_dataset orders warehouses clients fleet_logs drivers
      warehouse_logs external_factors feedback).rows.length = orders.length := by
  rw [create_integrated_dataset]
  dsimp only
  rw [optJoin_length _ _ _ (fun fb _ => joinFeedback_length fb _)]
  rw [optJoin_length _ _ _ (fun ex _ => joinExternal_length ex _)]
  rw [optJoin_length _ _ _ (fun wl _ => joinWarehouseLogs_length wl _)]
  rw [optJoin_length _ _ _ (fun ds hds => by
    by_cases hfl : fleet_logs.isSome = true
    · rw [if_pos hfl]
      exact joinDrivers_length ds _ (hd ds hds)
    · rw [if_neg hfl])]
  rw [optJoin_length _ _ _ (fun fl _ => joinFleet_length fl _)]
  rw [optJoin_length _ _ _ (fun cs hcs => joinClients_length cs _ (hc cs hcs))]
  rw [optJoin_length _ _ _ (fun ws hws => joinWarehouses_length ws _ (hw ws hws))]
  rw [List.length_map]

/-- Witness for C1 at a concrete two-order dataset with every secondary
source present. -/
theorem integration_preserves_order_count_witness :
    ((wWarehouses.map (·.warehouse_id)).Nodup ∧ (wClients.map (·.client_id)).Nodup ∧
      (wDrivers.map (·.driver_id)).Nodup) ∧
    (create_integrated_dataset [wOrderA, wOrderB] (some wWarehouses) (some wClients)
      (some wFleet) (some wDrivers) (some wWhLogs) (some wExternal)
      (some wFeedback)).rows.length = 2 :=
  ⟨⟨by decide, by decide, by decide⟩,
    integration_preserves_order_count [wOrderA, wOrderB] (some wWarehouses)
      (some wClients) (some wFleet) (some wDrivers) (some wWhLogs) (some wExternal)
      (some wFeedback)
      (fun ws h => by injection h with h; rw [← h]; decide)
      (fun cs h => by injection h with h; rw [← h]; decide)
      (fun ds h => by injection h with h; rw [← h]; decide)⟩

/-! ## Feature-engine claims (C2, C3, C4) -/

/-- C2: for every integrated record with status `Failed`, the primary
root cause is the verbatim `failure_reason` when present and
`Unknown Failure` when it is absent; in particular `failure_reason`
`Stock out` with status `Failed` yields `Stock out` (the status rule
overrides the `Stock Unavailability` keyword match). -/
theorem failed_status_overrides_keyword :
    (∀ (hs : Bool) (r : IntegRow), (deriveRow hs r).status = "Failed" →
      (deriveRow hs r).primary_root_cause = r.order.failure_reason.getD "Unknown Failure")
    ∧ (deriveRow true { order := wOrderB }).primary_root_cause = "Stock out" := by
  constructor
  · intro hs r h
    cases hs with
    | false => simp [deriveRow] at h
    | true =>
      have hst : r.order.status = "Failed" := h
      simp +decide [deriveRow, primaryRootCause, hst]
  · decide

/-- Witness for C2 at a concrete failed order. -/
theorem failed_status_overrides_keyword_witness :
    (deriveRow true { order := wOrderB }).status = "Failed" ∧
    (deriveRow true { order := wOrderB }).primary_root_cause =
      (({ order := wOrderB } : IntegRow).order.failure_reason.getD "Unknown Failure") :=
  ⟨by decide, failed_status_overrides_keyword.1 true { order := wOrderB } (by decide)⟩

/-- Helper: the overwrite chain of `severityOf` equals the
last-rule-wins conditional. -/
theorem severityOf_eq (delay : Int) (st : String) :
    severityOf delay st =
      (if st = "Failed" then "Critical"
       else if 5 < delay then "High"
       else if 2 < delay then "Medium" else "Low") := by
  rw [severityOf]
  by_cases hf : st = "Failed"
  · simp [hf]
  · have hb : (st == "Failed") = false := by simp [hf]
    by_cases h5 : 5 < delay
    · have h2 : 2 < delay := by omega
      simp [hb, hf, h5, h2]
    · by_cases h2 : 2 < delay <;> simp [hb, hf, h5, h2]

/-- C3: severity is `Low` by default, `Medium` when the delay exceeds
2 days, `High` when it exceeds 5, and `Critical` whenever status is
`Failed`, the status check being applied last so it wins regardless of
delay; in particular a 6-day delay with status `Failed` is `Critical`. -/
theorem severity_tiers :
    (∀ (hs : Bool) (r : IntegRow),
      (deriveRow hs r).severity =
        (if (deriveRow hs r).status = "Failed" then "Critical"
         else if 5 < (deriveRow hs r).delivery_delay_days then "High"
         else if 2 < (deriveRow hs r).delivery_delay_days then "Medium" else "Low"))
    ∧ (deriveRow true { order := wOrderC }).severity = "Critical" := by
  refine ⟨fun hs r => severityOf_eq _ _, by decide⟩

/-- C4: the delay in days is `actual − promised` when both dates are
present and 0 (not null) when either is missing; with a missing
`actual_delivery_date` the delay is 0 and `is_delayed` is determined
solely by the status; the 2024-01-10 → 2024-01-13 example gives 3. -/
theorem delay_days_spec :
    (∀ (hs : Bool) (r : IntegRow),
      (deriveRow hs r).delivery_delay_days =
        (match r.order.actual_delivery_date, r.order.promised_delivery_date with
         | some a, some p => a - p
         | _, _ => 0))
    ∧ (∀ (hs : Bool) (r : IntegRow), r.order.actual_delivery_date = none →
        (deriveRow hs r).delivery_delay_days = 0 ∧
          (deriveRow hs r).is_delayed =
            ["Failed", "Returned", "Pending"].contains (deriveRow hs r).status)
    ∧ (deriveRow true { order := wOrderD }).delivery_delay_days = 3 := by
  have hdelay : ∀ (hs : Bool) (r : IntegRow),
      (deriveRow hs r).delivery_delay_days =
        (match r.order.actual_delivery_date, r.order.promised_delivery_date with
         | some a, some p => a - p
         | _, _ => 0) := fun hs r => rfl
  refine ⟨hdelay, fun hs r h => ?_, by decide⟩
  have hz : (deriveRow hs r).delivery_delay_days = 0 := by
    rw [hdelay, h]
  refine ⟨hz, ?_⟩
  have hdl : (deriveRow hs r).is_delayed =
      (decide (0 < (deriveRow hs r).delivery_delay_days) ||
        ["Failed", "Returned", "Pending"].contains (deriveRow hs r).status) := rfl
  rw [hdl, hz]
  simp

/-- Witness for C4 at a concrete order with a missing actual date. -/
theorem delay_days_spec_witness :
    ({ order := wOrderB } : IntegRow).order.actual_delivery_date = none ∧
    ((deriveRow true { order := wOrderB }).delivery_delay_days = 0 ∧
      (deriveRow true { order := wOrderB }).is_delayed =
        ["Failed", "Returned", "Pending"].contains
          (deriveRow true { order := wOrderB }).status) :=
  ⟨by decide, delay_days_spec.2.1 true { order := wOrderB } (by decide)⟩

/-! ## Problem-predicate and filter claims (C10, C8) -/

/-- Helper: a status in the Failed/Returned pair is in the
Failed/Returned/Pending triple. -/
theorem contains_FR_imp (st : String) :
    ["Failed", "Returned"].contains st = true →
    ["Failed", "Returned", "Pending"].contains st = true := by
  intro h
  simp only [List.contains_eq_any_beq, List.any_cons, List.any_nil] at h ⊢
  rcases Bool.or_eq_true_iff.mp h with h1 | h2
  · simp [h1]
  · rcases Bool.or_eq_true_iff.mp h2 with h3 | h4
    · simp [h3]
    · simp at h4

/-- C10: on every record the feature engine produces, the problem
predicate of `explain_delivery_causes` (`is_delayed` OR status in
Failed/Returned) equals `is_delayed` alone, since `is_delayed` is
already true whenever the status is Failed, Returned or Pending; hence
the problem subset equals the delayed subset. -/
theorem problem_pred_eq_is_delayed :
    (∀ (hs : Bool) (r : IntegRow),
      problemPred (deriveRow hs r) = (deriveRow hs r).is_delayed)
    ∧ (∀ (jt : JoinedTable),
      (add_root_cause_features jt).1.filter problemPred =
        (add_root_cause_features jt).1.filter (fun r => r.is_delayed)) := by
  have hpt : ∀ (hs : Bool) (r : IntegRow),
      problemPred (deriveRow hs r) = (deriveRow hs r).is_delayed := by
    intro hs r
    rw [problemPred]
    cases hFR : ["Failed", "Returned"].contains (deriveRow hs r).status with
    | false => simp
    | true =>
      have h3 := contains_FR_imp _ hFR
      have hisd : (deriveRow hs r).is_delayed = true := by
        have hdef : (deriveRow hs r).is_delayed =
            (decide (0 < (deriveRow hs r).delivery_delay_days) ||
              ["Failed", "Returned", "Pending"].contains (deriveRow hs r).status) := rfl
        rw [hdef, h3]
        simp
      simp [hisd]
  refine ⟨hpt, fun jt => ?_⟩
  apply List.filter_congr
  intro x hx
  simp only [add_root_cause_features] at hx
  obtain ⟨r, hr, rfl⟩ := List.mem_map.mp hx
  exact hpt jt.hasStatus r

/-- Each optional restriction yields a sublist of its input. -/
theorem optRestrict_sublist (o : Option γ) (f : γ → List DerivedRow → List DerivedRow)
    (h : ∀ x l, (f x l).Sublist l) (rows : List DerivedRow) :
    (optRestrict o f rows).Sublist rows := by
  cases o with
  | none => exact List.Sublist.refl rows
  | some x => exact h x rows

theorem restrictCities_sublist : ∀ (cs : List String) (rows : List DerivedRow),
    (restrictCities cs rows).Sublist rows := by
  intro cs rows
  rw [restrictCities]
  split
  · exact List.Sublist.refl rows
  · exact List.filter_sublist rows

theorem restrictFrom_sublist : ∀ (d : Int) (rows : List DerivedRow),
    (restrictFrom d rows).Sublist rows :=
  fun _ rows => List.filter_sublist rows

theorem restrictTo_sublist : ∀ (d : Int) (rows : List DerivedRow),
    (restrictTo d rows).Sublist rows :=
  fun _ rows => List.filter_sublist rows

theorem restrictClients_sublist : ∀ (cs : List String) (rows : List DerivedRow),
    (restrictClients cs rows).Sublist rows := by
  intro cs rows
  rw [restrictClients]
  split
  · exact List.Sublist.refl rows
  · exact List.filter_sublist rows

theorem restrictWarehouses_sublist : ∀ (ws : List String) (rows : List DerivedRow),
    (restrictWarehouses ws rows).Sublist rows := by
  intro ws rows
  rw [restrictWarehouses]
  split
  · exact List.Sublist.refl rows
  · exact List.filter_sublist rows

/-- C8: filtering with an empty filter specification (no keys supplied)
returns the integrated record set unchanged, and `filter_data` never
mutates the source table: in this pure model it builds a fresh table
whose rows are always a sublist of the source rows and whose column set
is the source column set. -/
theorem filter_empty_identity_and_pure :
    (∀ (t : IntegratedDF), filter_data {} t = t)
    ∧ (∀ (fs : Filters) (t : IntegratedDF),
        (filter_data fs t).rows.Sublist t.rows ∧ (filter_data fs t).cols = t.cols) := by
  constructor
  · intro t
    rfl
  · intro fs t
    refine ⟨?_, rfl⟩
    rw [filter_data]
    exact ((optRestrict_sublist _ _ restrictWarehouses_sublist _).trans
      ((optRestrict_sublist _ _ restrictClients_sublist _).trans
        ((optRestrict_sublist _ _ restrictTo_sublist _).trans
          ((optRestrict_sublist _ _ restrictFrom_sublist _).trans
            (optRestrict_sublist _ _ restrictCities_sublist _)))))

/-! ## Lost-status claim (C9) -/

/-- C9: whenever the `status` column is lost to the drivers-merge
column collision (fleet logs and drivers both present), the feature
engine sets every row's status to the explicit `Unknown` sentinel and
surfaces a warning, instead of the pipeline failing. -/
theorem lost_status_defaults_to_unknown (orders : List OrderRow)
    (warehouses : Option (List WarehouseRow)) (clients : Option (List ClientRow))
    (fleet_logs : Option (List FleetLogRow)) (drivers : Option (List DriverRow))
    (warehouse_logs : Option (List WarehouseLogRow))
    (external_factors : Option (List ExternalFactorRow))
    (feedback : Option (List FeedbackRow))
    (hf : fleet_logs.isSome = true) (hd : drivers.isSome = true) :
    (∀ r ∈ (integrated_df orders warehouses clients fleet_logs drivers
        warehouse_logs external_factors feedback).1.rows, r.status = "Unknown")
    ∧ (integrated_df orders warehouses clients fleet_logs drivers
        warehouse_logs external_factors feedback).2 = true := by
  have hhs : (create_integrated_dataset orders warehouses clients fleet_logs drivers
      warehouse_logs external_factors feedback).hasStatus = false := by
    show (!(fleet_logs.isSome && drivers.isSome)) = false
    rw [hf, hd]
    rfl
  constructor
  · intro r hr
    simp only [integrated_df, add_root_cause_features] at hr
    obtain ⟨x, hx, rfl⟩ := List.mem_map.mp hr
    show (if (create_integrated_dataset orders warehouses clients fleet_logs drivers
      warehouse_logs external_factors feedback).hasStatus then x.order.status
      else "Unknown") = "Unknown"
    rw [hhs]
    rfl
  · simp only [integrated_df, add_root_cause_features]
    rw [hhs]
    rfl

/-- Witness for C9 at a concrete dataset with fleet logs and drivers
present. -/
theorem lost_status_defaults_to_unknown_witness :
    ((some wFleet).isSome = true ∧ (some wDrivers).isSome = true) ∧
    ((∀ r ∈ (integrated_df [wOrderA, wOrderB] none none (some wFleet) (some wDrivers)
        none none none).1.rows, r.status = "Unknown")
      ∧ (integrated_df [wOrderA, wOrderB] none none (some wFleet) (some wDrivers)
          none none none).2 = true) :=
  ⟨⟨rfl, rfl⟩,
    lost_status_defaults_to_unknown [wOrderA, wOrderB] none none (some wFleet)
      (some wDrivers) none none none rfl rfl⟩

/-! ## Analytics error-handling claims (C6, C7) -/

/-- C6: when the problem subset (delayed or Failed/Returned records) is
empty — for example when every order is `Delivered` with non-positive
delay — `explain_delivery_causes` returns the explicit no-issues
sentinel: no exception (the function is total) and no empty breakdown
table. -/
theorem explain_no_issues_sentinel :
    (∀ (df : IntegratedDF) (limit : Nat), df.rows.filter problemPred = [] →
      explain_delivery_causes df limit =
        .noIssues "No delivery issues found in the specified criteria")
    ∧ (∀ (cols : List String) (jt : JoinedTable) (limit : Nat),
        (∀ r ∈ jt.rows, r.order.status = "Delivered") →
        (∀ r ∈ jt.rows, (deriveRow jt.hasStatus r).delivery_delay_days ≤ 0) →
        explain_delivery_causes ⟨cols, (add_root_cause_features jt).1⟩ limit =
          .noIssues "No delivery issues found in the specified criteria") := by
  have hpart1 : ∀ (df : IntegratedDF) (limit : Nat), df.rows.filter problemPred = [] →
      explain_delivery_causes df limit =
        .noIssues "No delivery issues found in the specified criteria" := by
    intro df limit h
    rw [explain_delivery_causes, h]
    rfl
  refine ⟨hpart1, fun cols jt limit hst hdel => ?_⟩
  apply hpart1
  rw [List.filter_eq_nil_iff]
  intro x hx
  simp only [add_root_cause_features] at hx
  obtain ⟨r, hr, rfl⟩ := List.mem_map.mp hx
  have h1 := hst r hr
  have h2 := hdel r hr
  have hb : (deriveRow jt.hasStatus r).status = "Delivered" ∨
      (deriveRow jt.hasStatus r).status = "Unknown" := by
    have hdef : (deriveRow jt.hasStatus r).status =
        (if jt.hasStatus then r.order.status else "Unknown") := rfl
    rw [hdef, h1]
    cases jt.hasStatus
    · right; rfl
    · left; rfl
  have hdec : decide (0 < (deriveRow jt.hasStatus r).delivery_delay_days) = false := by
    simp only [decide_eq_false_iff_not]
    omega
  have hisd : (deriveRow jt.hasStatus r).is_delayed = false := by
    have hdef : (deriveRow jt.hasStatus r).is_delayed =
        (decide (0 < (deriveRow jt.hasStatus r).delivery_delay_days) ||
          ["Failed", "Returned", "Pending"].contains (deriveRow jt.hasStatus r).status) := rfl
    rw [hdef, hdec]
    rcases hb with h | h <;> rw [h] <;> rfl
  have hpp : problemPred (deriveRow jt.hasStatus r) = false := by
    rw [problemPred, hisd]
    rcases hb with h | h <;> rw [h] <;> rfl
  simp [hpp]

/-- Witness for C6 at a one-order all-delivered table. -/
theorem explain_no_issues_sentinel_witness :
    ((∀ r ∈ wCleanJT.rows, r.order.status = "Delivered") ∧
      (∀ r ∈ wCleanJT.rows, (deriveRow wCleanJT.hasStatus r).delivery_delay_days ≤ 0)) ∧
    explain_delivery_causes ⟨[], (add_root_cause_features wCleanJT).1⟩ 10 =
      .noIssues "No delivery issues found in the specified criteria" :=
  ⟨⟨by decide, by decide⟩,
    explain_no_issues_sentinel.2 [] wCleanJT 10 (by decide) (by decide)⟩

/-- C7: comparing on a dimension that is not a present column returns a
structured error result naming the missing field and raises no
exception (the function is total); on a present column it returns the
per-group statistics table instead. -/
theorem compare_dimension_error_or_stats :
    (∀ (df : IntegratedDF) (dim : String), df.cols.contains dim = false →
      compare_performance df dim = .failure ("Field \x27" ++ dim ++ "\x27 not found"))
    ∧ (∀ (df : IntegratedDF) (dim : String), df.cols.contains dim = true →
      compare_performance df dim =
        .stats (List.insertionSort (fun a b => b.2.delay_rate ≤ a.2.delay_rate)
          ((groupBy (fun r => colValue r dim) df.rows).map (fun g => (g.1, groupStats g.2))))) := by
  constructor
  · intro df dim h
    rw [compare_performance]
    rw [if_neg (by rw [h]; exact Bool.false_ne_true)]
  · intro df dim h
    rw [compare_performance]
    rw [if_pos h]

/-- Witness for C7: an absent dimension errors, a present one returns
the statistics table. -/
theorem compare_dimension_error_or_stats_witness :
    ((wCleanDF.cols.contains "bogus" = false ∧
      compare_performance wCleanDF "bogus" =
        .failure ("Field \x27" ++ "bogus" ++ "\x27 not found")) ∧
     (wCleanDF.cols.contains "city" = true ∧
      compare_performance wCleanDF "city" =
        .stats (List.insertionSort (fun a b => b.2.delay_rate ≤ a.2.delay_rate)
          ((groupBy (fun r => colValue r "city") wCleanDF.rows).map
            (fun g => (g.1, groupStats g.2)))))) :=
  ⟨⟨by decide, compare_dimension_error_or_stats.1 wCleanDF "bogus" (by decide)⟩,
   ⟨by decide, compare_dimension_error_or_stats.2 wCleanDF "city" (by decide)⟩⟩

/-! ## Rounding and sort order (C5)

`explain_delivery_causes` sorts its breakdown on `failure_count`, an
integer count that `.round(2)` leaves unchanged, so that order agrees
with the unrounded counts.  `compare_performance`, however, computes
`delay_rate`, rounds it, and sorts on the ROUNDED value, so two groups
whose distinct unrounded rates round to the same 2-decimal value keep
their group-key order instead of the unrounded-rate order.
-/

/-- C5 (amended): the explain breakdown is sorted descending by
`failure_count` (identical to the unrounded group count, since rounding
does not touch integer counts), while the comparison table is sorted
descending by the ROUNDED `delay_rate`. -/
theorem breakdown_sort_orders :
    (∀ (df : IntegratedDF) (limit : Nat) (a : Analysis),
      explain_delivery_causes df limit = .report a →
      a.root_cause_analysis.Pairwise (fun x y => y.2.failure_count ≤ x.2.failure_count))
    ∧ (∀ (df : IntegratedDF) (dim : String) (t : List (String × GroupStats)),
      compare_performance df dim = .stats t →
      t.Pairwise (fun x y => y.2.delay_rate ≤ x.2.delay_rate)) := by
  constructor
  · intro df limit a h
    rw [explain_delivery_causes] at h
    by_cases hp : (df.rows.filter problemPred).isEmpty = true
    · rw [if_pos hp] at h
      simp at h
    · rw [if_neg hp] at h
      dsimp only at h
      injection h with h
      rw [← h]
      haveI ht : IsTotal (String × CauseStats)
          (fun x y => y.2.failure_count ≤ x.2.failure_count) :=
        ⟨fun a b => Nat.le_total _ _⟩
      haveI htr : IsTrans (String × CauseStats)
          (fun x y => y.2.failure_count ≤ x.2.failure_count) :=
        ⟨fun a b c h1 h2 => Nat.le_trans h2 h1⟩
      exact List.Pairwise.sublist (List.take_sublist _ _)
        (List.sorted_insertionSort _ _)
  · intro df dim t h
    rw [compare_performance] at h
    by_cases hc : df.cols.contains dim = true
    · rw [if_pos hc] at h
      dsimp only at h
      injection h with h
      rw [← h]
      haveI ht : IsTotal (String × GroupStats)
          (fun x y => y.2.delay_rate ≤ x.2.delay_rate) :=
        ⟨fun a b => le_total _ _⟩
      haveI htr : IsTrans (String × GroupStats)
          (fun x y => y.2.delay_rate ≤ x.2.delay_rate) :=
        ⟨fun a b c h1 h2 => le_trans h2 h1⟩
      exact List.sorted_insertionSort _ _
    · rw [if_neg hc] at h
      simp at h

/-- Witness for the amended C5 at the one-failed-order table. -/
theorem breakdown_sort_orders_witness :
    (explain_delivery_causes wFailDF 10 = .report wFailAnalysis ∧
      wFailAnalysis.root_cause_analysis.Pairwise
        (fun x y => y.2.failure_count ≤ x.2.failure_count))
    ∧ (compare_performance wFailDF "city" = .stats wFailCityStats ∧
      wFailCityStats.Pairwise (fun x y => y.2.delay_rate ≤ x.2.delay_rate)) :=
  ⟨⟨by decide, breakdown_sort_orders.1 wFailDF 10 wFailAnalysis (by decide)⟩,
   ⟨by decide, breakdown_sort_orders.2 wFailDF "city" wFailCityStats (by decide)⟩⟩

set_option maxRecDepth 4000000 in
/-- C5 counterexample: `compare_performance` emits city A before city B
although A's unrounded delay rate (10/321 · 100) is strictly below B's
(1/32 · 100) — both round to 3.12 and the sort key is the rounded rate,
so the output is NOT sorted by the unrounded `delay_rate` descending. -/
theorem compare_sort_uses_rounded_rate :
    compare_performance cmpDF "city" = .stats [("A", cmpStatsA), ("B", cmpStatsB)]
    ∧ ((cmpStatsA.delayed_orders : ℚ) / (cmpStatsA.total_orders : ℚ) * 100
        < (cmpStatsB.delayed_orders : ℚ) / (cmpStatsB.total_orders : ℚ) * 100) := by
  constructor
  · decide
  · have h : qmul (qdiv ((cmpStatsA.delayed_orders : Nat) : ℚ)
        ((cmpStatsA.total_orders : Nat) : ℚ)) 100
      < qmul (qdiv ((cmpStatsB.delayed_orders : Nat) : ℚ)
        ((cmpStatsB.total_orders : Nat) : ℚ)) 100 := by decide
    rwa [qmul_eq, qmul_eq, qdiv_eq, qdiv_eq] at h
